import Mathlib

/-!
Verification of the azka-blog content-display front-end.

The repository renders a blog index page and per-post detail pages from a
hosted CMS.  We embed, in order:

* the document data model (`PostDoc`, `AuthorDoc`, `CategoryDoc`, `SEO`,
  body `BodyBlock`s) from the TypeScript interfaces in
  `src/app/blog/[slug]/page.tsx` and `src/app/page.tsx`;
* the two GROQ queries (`POSTS_QUERY`, `POST_QUERY`) as list transforms on a
  snapshot of the document store (filter / sort / slice / projection, read
  off the query strings themselves);
* the module-load configuration check and the image-URL builder;
* the PortableText component mapping (`components`) as a renderer from body
  blocks to markup fragments;
* `generateMetadata`, `PostPage` and `BlogIndexPage` as total functions on
  fetch results.

Publication timestamps are embedded as `Nat` (ISO date-time strings compare
chronologically, so any order-embedding of the timestamps suffices for the
ordering claims).
-/

namespace AzkaBlog

/-- Post status, from the `status: "draft" | "published" | "archived"`
field of the `Post` interface. -/
inductive Status where
  | draft
  | published
  | archived
deriving DecidableEq, Repr

/-- Author document projection (`author->{_id, name}`). -/
structure AuthorDoc where
  authorId : String
  name : String
deriving DecidableEq, Repr

/-- Category document projection (`categories[]->{_id, title}`). -/
structure CategoryDoc where
  categoryId : String
  title : String
deriving DecidableEq, Repr

/-- SEO metadata object, from the `SEO` interface: all three fields
optional. -/
structure SEO where
  metaTitle : Option String
  metaDescription : Option String
  keywords : Option (List String)
deriving DecidableEq, Repr

/-- One node of the PortableText body.  Discriminants recognised by the
`components` mapping in `src/app/blog/[slug]/page.tsx`: the custom types
`image` and `code`, the block styles `h1`/`h2`/`h3`/`blockquote`, the
default `normal` (plain-text paragraph) style, and a catch-all for any
discriminant outside the recognised set. -/
inductive BodyBlock where
  | image (asset : Option String) (alt : Option String) (caption : Option String)
  | code (codeText : String) (filename : Option String) (language : Option String)
  | heading1 (text : String)
  | heading2 (text : String)
  | heading3 (text : String)
  | blockquote (text : String)
  | normal (text : String)
  | unknown (tag : String)
deriving DecidableEq, Repr

/-- Main-image field (`mainImage { asset->, alt, caption }`). -/
structure ImageField where
  asset : Option String
  alt : Option String
  caption : Option String
deriving DecidableEq, Repr

/-- A post document as stored in the CMS, following the `Post` interface of
`src/app/blog/[slug]/page.tsx`.  `slug` is `slug.current` (`none` when the
slug is not defined), `publishedAt` is the publication timestamp (`none`
when not defined). -/
structure PostDoc where
  postId : String
  docType : String
  title : String
  slug : Option String
  publishedAt : Option Nat
  body : List BodyBlock
  author : AuthorDoc
  categories : List CategoryDoc
  mainImage : Option ImageField
  excerpt : Option String
  seo : Option SEO
  tags : List String
  status : Status
deriving DecidableEq, Repr

/-- The filter of `POSTS_QUERY` in `src/app/page.tsx`:
`_type == "post" && defined(slug.current) && defined(publishedAt)
&& status == "published"`. -/
def postsPred (p : PostDoc) : Bool :=
  p.docType == "post" && p.slug.isSome && p.publishedAt.isSome
    && decide (p.status = Status.published)

/-- Sort key for `order(publishedAt desc)`.  The query filter guarantees
`publishedAt` is defined on every document it keeps. -/
def pubKey (p : PostDoc) : Nat :=
  p.publishedAt.getD 0

/-- Descending comparison on publication timestamps: `a` may precede `b`
in the query result when `b`'s timestamp is at most `a`'s. -/
def pubDescLE (a b : PostDoc) : Prop :=
  pubKey b ≤ pubKey a

instance : DecidableRel pubDescLE := fun a b =>
  inferInstanceAs (Decidable (pubKey b ≤ pubKey a))

instance : IsTotal PostDoc pubDescLE :=
  ⟨fun a b => Nat.le_total (pubKey b) (pubKey a)⟩

instance : IsTrans PostDoc pubDescLE :=
  ⟨fun _ _ _ hab hbc => Nat.le_trans hbc hab⟩

/-- Strictly-descending comparison on publication timestamps, used to state
the strict-ordering reading of the index-query claim. -/
def pubStrictGT (a b : PostDoc) : Prop :=
  pubKey b < pubKey a

instance : DecidableRel pubStrictGT := fun a b =>
  inferInstanceAs (Decidable (pubKey b < pubKey a))

/-- `POSTS_QUERY` up to (but not including) the final projection: filter the
store, `order(publishedAt desc)`, slice `[0...12]`. -/
def postsQueryDocs (db : List PostDoc) : List PostDoc :=
  (List.insertionSort pubDescLE (db.filter postsPred)).take 12

/-- The summary view projected by `POSTS_QUERY`:
`{_id, title, slug, publishedAt, "author": author->{name},
"categories": categories[]->{title}}`. -/
structure PostSummary where
  postId : String
  title : String
  slug : Option String
  publishedAt : Option Nat
  authorName : String
  categoryTitles : List String
deriving DecidableEq, Repr

/-- The projection clause of `POSTS_QUERY`. -/
def toSummary (p : PostDoc) : PostSummary :=
  { postId := p.postId
    title := p.title
    slug := p.slug
    publishedAt := p.publishedAt
    authorName := p.author.name
    categoryTitles := p.categories.map CategoryDoc.title }

/-- The full `POSTS_QUERY` of `src/app/page.tsx`: filter, sort descending by
`publishedAt`, truncate to 12, project to summaries. -/
def postsQuery (db : List PostDoc) : List PostSummary :=
  (postsQueryDocs db).map toSummary

/-- The filter of `POST_QUERY` in `src/app/blog/[slug]/page.tsx`:
`_type == "post" && slug.current == $slug && status == "published"`. -/
def postPred (slug : String) (p : PostDoc) : Bool :=
  p.docType == "post" && decide (p.slug = some slug)
    && decide (p.status = Status.published)

/-- `POST_QUERY`: filter by slug and status, take element `[0]` (GROQ
returns `null` when nothing matches, embedded as `none`). -/
def postQuery (db : List PostDoc) (slug : String) : Option PostDoc :=
  (db.filter (postPred slug)).head?

/-- The Sanity client configuration surface (`client.config()` returns the
project id and dataset, each possibly absent). -/
structure ClientConfig where
  projectId : Option String
  dataset : Option String
deriving DecidableEq, Repr

/-- The configuration of the client created in `src/unnamed/part_000`:
`createClient({ projectId: "ppql4ntm", dataset: "production", ... })`. -/
def clientConfig : ClientConfig :=
  { projectId := some "ppql4ntm", dataset := some "production" }

/-- JavaScript truthiness of an optional string: `!x` is true exactly when
the value is absent or the empty string. -/
def strTruthy : Option String → Bool
  | none => false
  | some s => !(s == "")

/-- The image-URL builder state (`imageUrlBuilder({ projectId, dataset })`). -/
structure ImageBuilder where
  projectId : String
  dataset : String
deriving DecidableEq, Repr

/-- The module-load prologue of `src/app/blog/[slug]/page.tsx`:
`const { projectId, dataset } = client.config();
if (!projectId || !dataset) throw new Error(...);
const builder = imageUrlBuilder({ projectId, dataset });`
A thrown error at module load is embedded as `Except.error`. -/
def moduleInit (cfg : ClientConfig) : Except String ImageBuilder :=
  if strTruthy cfg.projectId && strTruthy cfg.dataset then
    Except.ok
      { projectId := cfg.projectId.getD "", dataset := cfg.dataset.getD "" }
  else
    Except.error "Sanity project ID and dataset are required"

/-- Modelled from the spec: the Image-URL Deriver (`@sanity/image-url`,
an external library whose source is not in this repository).  Per the spec,
"given {asset reference, project, dataset, width, height}, returns a
fully-qualified URL string" pointing at the CDN, and "returns no usable
value (caller must treat as absent) if the reference is malformed"; a
malformed or missing asset reference is embedded as `none`.  The width
(and optional height) parameters are encoded in the URL query string. -/
def urlFor (b : ImageBuilder) (asset : Option String) (w : Nat)
    (h : Option Nat) : Option String :=
  match asset with
  | none => none
  | some ref =>
      some ("https://cdn.sanity.io/images/" ++ b.projectId ++ "/"
        ++ b.dataset ++ "/" ++ ref ++ "?w=" ++ toString w
        ++ (match h with
            | none => ""
            | some hh => "&h=" ++ toString hh))

/-- A markup fragment produced for one body block. -/
inductive Fragment where
  | figure (src : String) (alt : String) (width : Nat) (height : Nat)
      (caption : Option String)
  | pre (codeText : String) (language : Option String) (filename : Option String)
  | h1 (text : String)
  | h2 (text : String)
  | h3 (text : String)
  | blockquote (text : String)
  | para (text : String)
deriving DecidableEq, Repr

/-- JavaScript truthiness guard used by the JSX `value.caption && ...` and
`value.language && ...` patterns: the fragment part is emitted only when
the string is present and non-empty. -/
def truthyOpt : Option String → Option String
  | none => none
  | some s => if s == "" then none else some s

/-- The `components` mapping of `src/app/blog/[slug]/page.tsx`, applied to
one body block.  `image`: derive a URL at width 800; if derivation yields
no URL the component returns `null` (no fragment), otherwise a figure with
`width={800} height={450}`, alt `value.alt || ""` and an optional caption.
`code`: a `pre` fragment with the verbatim text, truthy language and truthy
filename.  Block styles `h1`/`h2`/`h3`/`blockquote` render headings and a
quote.  The `normal` paragraph default and the unknown-discriminant case
are modelled from the spec (the dispatch lives in `@portabletext/react`,
an external library): per the spec, plain text renders as a paragraph and
"unrecognized discriminants render as nothing (silently skipped), not an
error". -/
def renderBlock (b : ImageBuilder) : BodyBlock → Option Fragment
  | BodyBlock.image asset alt caption =>
      match urlFor b asset 800 none with
      | none => none
      | some url =>
          some (Fragment.figure url (alt.getD "") 800 450 (truthyOpt caption))
  | BodyBlock.code codeText filename language =>
      some (Fragment.pre codeText (truthyOpt language) (truthyOpt filename))
  | BodyBlock.heading1 t => some (Fragment.h1 t)
  | BodyBlock.heading2 t => some (Fragment.h2 t)
  | BodyBlock.heading3 t => some (Fragment.h3 t)
  | BodyBlock.blockquote t => some (Fragment.blockquote t)
  | BodyBlock.normal t => some (Fragment.para t)
  | BodyBlock.unknown _ => none

/-- Rendering a whole body: one fragment per rendered block, in input
order; blocks whose component yields `null` contribute nothing. -/
def renderBlocks (b : ImageBuilder) (blocks : List BodyBlock) : List Fragment :=
  blocks.filterMap (renderBlock b)

/-- The result of `generateMetadata`: a title, an optional description, an
optional keyword list (`undefined` embedded as `none`). -/
structure PageMetadata where
  title : String
  description : Option String
  keywords : Option (List String)
deriving DecidableEq, Repr

/-- `generateMetadata` of `src/app/blog/[slug]/page.tsx`, as a function of
the fetch result.  No match: `{ title: "Post Not Found" }`.  Otherwise
`title: post.seo?.metaTitle ?? post.title`,
`description: post.seo?.metaDescription ?? post.excerpt ?? undefined`,
`keywords: post.seo?.keywords ?? undefined`. -/
def generateMetadata (fetched : Option PostDoc) : PageMetadata :=
  match fetched with
  | none => { title := "Post Not Found", description := none, keywords := none }
  | some post =>
      { title := (post.seo.bind SEO.metaTitle).getD post.title
        description :=
          (post.seo.bind SEO.metaDescription).orElse (fun _ => post.excerpt)
        keywords := post.seo.bind SEO.keywords }

/-- The two terminal views of the detail page: the "not found" state and a
rendered article (title, optional main-image URL, body fragments). -/
inductive DetailView where
  | notFound
  | rendered (title : String) (mainImageUrl : Option String)
      (fragments : List Fragment)
deriving DecidableEq, Repr

/-- `PostPage` of `src/app/blog/[slug]/page.tsx` as a function of the fetch
result: no match renders the "Post not found" view; a match derives
`mainImageUrl` via the builder at 1200x675 and renders the body through the
`components` mapping. -/
def postPage (b : ImageBuilder) (fetched : Option PostDoc) : DetailView :=
  match fetched with
  | none => DetailView.notFound
  | some post =>
      DetailView.rendered post.title
        (post.mainImage.bind (fun img => urlFor b img.asset 1200 (some 675)))
        (renderBlocks b post.body)

/-- The two terminal views of the index page: the explicit "No posts
found." state and a rendered card list. -/
inductive IndexView where
  | noPosts
  | postList (cards : List PostSummary)
deriving DecidableEq, Repr

/-- `BlogIndexPage` of `src/app/page.tsx` as a function of the fetch
result: `if (!posts?.length)` renders the "No posts found." state (both
when the fetch result is null/undefined and when the list is empty);
otherwise the card list mapped from the posts. -/
def blogIndexPage (fetched : Option (List PostSummary)) : IndexView :=
  match fetched with
  | none => IndexView.noPosts
  | some [] => IndexView.noPosts
  | some ps => IndexView.postList ps

/-- A minimal published, well-formed post document, for concrete
witnesses. -/
def samplePost (id : String) (t : Nat) : PostDoc :=
  { postId := id
    docType := "post"
    title := id
    slug := some id
    publishedAt := some t
    body := []
    author := { authorId := "a1", name := "Author" }
    categories := []
    mainImage := none
    excerpt := none
    seo := none
    tags := []
    status := Status.published }

/-- The sample post with status draft, for concrete witnesses. -/
def draftPost : PostDoc :=
  { samplePost "d1" 7 with status := Status.draft }

/-- A concrete builder for witnesses, matching `clientConfig`. -/
def sampleBuilder : ImageBuilder :=
  { projectId := "ppql4ntm", dataset := "production" }

/-- Eligibility predicate of the index-query claim: status published, slug
defined, publication timestamp defined. -/
def eligible (p : PostDoc) : Bool :=
  decide (p.status = Status.published) && p.slug.isSome && p.publishedAt.isSome

/-- Every document kept by the index-query filter is eligible. -/
theorem eligible_of_postsPred {p : PostDoc} (h : postsPred p = true) :
    eligible p = true := by
  simp only [postsPred, Bool.and_eq_true, decide_eq_true_eq] at h
  simp only [eligible, Bool.and_eq_true, decide_eq_true_eq]
  exact ⟨⟨h.2, h.1.1.2⟩, h.1.2⟩

/-- Membership in the index-query result implies membership in the filtered
store. -/
theorem mem_filter_of_mem_postsQueryDocs {db : List PostDoc} {p : PostDoc}
    (h : p ∈ postsQueryDocs db) : p ∈ db.filter postsPred :=
  (List.mem_insertionSort pubDescLE).mp (List.mem_of_mem_take h)

/-- C1 (amended): the index query returns only posts with status published,
a defined slug and a defined publication timestamp, ordered by publication
timestamp descending (non-strictly: posts sharing a timestamp may appear
adjacent in either order), and returns at most 12 summary entries, each the
projection of a returned document. -/
theorem index_query_shape (db : List PostDoc) :
    (postsQueryDocs db).all eligible = true ∧
    List.Pairwise pubDescLE (postsQueryDocs db) ∧
    (postsQuery db).length ≤ 12 ∧
    postsQuery db = (postsQueryDocs db).map toSummary := by
  refine ⟨?_, ?_, ?_, rfl⟩
  · rw [List.all_eq_true]
    intro p hp
    exact eligible_of_postsPred
      (List.mem_filter.mp (mem_filter_of_mem_postsQueryDocs hp)).2
  · exact List.Pairwise.sublist (List.take_sublist 12 _)
      (List.sorted_insertionSort pubDescLE (db.filter postsPred))
  · rw [postsQuery, List.length_map, postsQueryDocs, List.length_take]
    exact Nat.min_le_left 12 _

/-- C1 counterexample: with two published, well-formed posts sharing the
publication timestamp 5, the index-query result is not strictly descending
in the timestamp, so the claim's strict ordering fails as stated. -/
theorem index_query_not_strict :
    ¬ List.Pairwise pubStrictGT
        (postsQueryDocs [samplePost "p1" 5, samplePost "p2" 5]) := by
  decide

/-- C2: a post whose status is draft or archived is excluded by both query
filters: it is never among the index-query documents, and the detail query
never returns it, whatever slug is requested. -/
theorem draft_archived_invisible (db : List PostDoc) (p : PostDoc)
    (h : p.status = Status.draft ∨ p.status = Status.archived) :
    p ∉ postsQueryDocs db ∧ ∀ slug, postQuery db slug ≠ some p := by
  have hnp : p.status ≠ Status.published := by
    rcases h with h | h <;> simp [h]
  constructor
  · intro hp
    have hpred := (List.mem_filter.mp (mem_filter_of_mem_postsQueryDocs hp)).2
    simp only [postsPred, Bool.and_eq_true, decide_eq_true_eq] at hpred
    exact hnp hpred.2
  · intro slug hq
    obtain ⟨ys, hys⟩ := List.head?_eq_some_iff.mp hq
    have hmem : p ∈ db.filter (postPred slug) := by
      rw [hys]; exact List.mem_cons_self _ _
    have hpred := (List.mem_filter.mp hmem).2
    simp only [postPred, Bool.and_eq_true, decide_eq_true_eq] at hpred
    exact hnp hpred.2

/-- C2 witness: the concrete draft post is excluded from both queries over
a store that contains it. -/
theorem draft_archived_invisible_witness :
    (draftPost.status = Status.draft ∨ draftPost.status = Status.archived) ∧
    draftPost ∉ postsQueryDocs [draftPost] ∧
    postQuery [draftPost] "d1" ≠ some draftPost :=
  ⟨Or.inl rfl,
   (draft_archived_invisible [draftPost] draftPost (Or.inl rfl)).1,
   (draft_archived_invisible [draftPost] draftPost (Or.inl rfl)).2 "d1"⟩

/-- C3: an image block whose asset reference resolves renders a figure
whose URL ends in the width-800 query parameter; when derivation yields no
URL, the block renders nothing. -/
theorem image_block_width (b : ImageBuilder) (asset alt caption : Option String) :
    (∀ url, urlFor b asset 800 none = some url →
        renderBlock b (BodyBlock.image asset alt caption)
          = some (Fragment.figure url (alt.getD "") 800 450 (truthyOpt caption)) ∧
        ∃ stem, url = stem ++ "?w=800") ∧
    (urlFor b asset 800 none = none →
        renderBlock b (BodyBlock.image asset alt caption) = none) := by
  constructor
  · intro url hu
    refine ⟨by simp [renderBlock, hu], ?_⟩
    cases asset with
    | none => simp [urlFor] at hu
    | some ref =>
        simp only [urlFor, Option.some.injEq] at hu
        refine ⟨"https://cdn.sanity.io/images/" ++ b.projectId ++ "/"
          ++ b.dataset ++ "/" ++ ref, ?_⟩
        rw [← hu, String.append_empty, String.append_assoc]
        congr 1
  · intro hu
    simp [renderBlock, hu]

/-- C3 witness: a concrete resolvable reference yields the figure fragment
with the width-800 URL, and an unresolvable reference renders nothing. -/
theorem image_block_width_witness :
    renderBlock sampleBuilder (BodyBlock.image (some "img1") none none)
      = some (Fragment.figure
          "https://cdn.sanity.io/images/ppql4ntm/production/img1?w=800"
          "" 800 450 none) ∧
    (∃ stem, "https://cdn.sanity.io/images/ppql4ntm/production/img1?w=800"
        = stem ++ "?w=800") ∧
    renderBlock sampleBuilder (BodyBlock.image none none none) = none :=
  ⟨((image_block_width sampleBuilder (some "img1") none none).1
      "https://cdn.sanity.io/images/ppql4ntm/production/img1?w=800" rfl).1,
   ((image_block_width sampleBuilder (some "img1") none none).1
      "https://cdn.sanity.io/images/ppql4ntm/production/img1?w=800" rfl).2,
   (image_block_width sampleBuilder none none none).2 rfl⟩

/-- C4: the renderer is a pure transform: two runs on equal block
sequences, under the same builder, produce equal fragment sequences. -/
theorem render_deterministic (b : ImageBuilder)
    (blocks1 blocks2 : List BodyBlock) (h : blocks1 = blocks2) :
    renderBlocks b blocks1 = renderBlocks b blocks2 := by
  rw [h]

/-- C4 witness: two runs on a concrete sequence agree. -/
theorem render_deterministic_witness :
    [BodyBlock.heading1 "Intro", BodyBlock.image (some "img1") none none]
      = [BodyBlock.heading1 "Intro", BodyBlock.image (some "img1") none none] ∧
    renderBlocks sampleBuilder
        [BodyBlock.heading1 "Intro", BodyBlock.image (some "img1") none none]
      = renderBlocks sampleBuilder
        [BodyBlock.heading1 "Intro", BodyBlock.image (some "img1") none none] :=
  ⟨rfl, render_deterministic sampleBuilder _ _ rfl⟩

/-- C5: generated metadata prefers the SEO overrides: the title is the
metaTitle override when present, else the post title; the description is
the metaDescription override when present, else exactly the optional
excerpt (absent, not empty, when the excerpt is absent); the keywords are
the SEO keyword list when present, else absent. -/
theorem metadata_fields (post : PostDoc) :
    (∀ t, post.seo.bind SEO.metaTitle = some t →
        (generateMetadata (some post)).title = t) ∧
    (post.seo.bind SEO.metaTitle = none →
        (generateMetadata (some post)).title = post.title) ∧
    (∀ d, post.seo.bind SEO.metaDescription = some d →
        (generateMetadata (some post)).description = some d) ∧
    (post.seo.bind SEO.metaDescription = none →
        (generateMetadata (some post)).description = post.excerpt) ∧
    (∀ ks, post.seo.bind SEO.keywords = some ks →
        (generateMetadata (some post)).keywords = some ks) ∧
    (post.seo.bind SEO.keywords = none →
        (generateMetadata (some post)).keywords = none) := by
  refine ⟨?_, ?_, ?_, ?_, ?_, ?_⟩ <;> intro h1 <;>
    first
      | (intro h2; simp [generateMetadata, h2, Option.orElse])
      | simp [generateMetadata, h1, Option.orElse]

/-- The sample post with an excerpt and no SEO object, for the metadata
witness. -/
def excerptPost : PostDoc :=
  { samplePost "w5" 1 with excerpt := some "An excerpt." }

/-- C5 witness: with no SEO object, the title falls back to the post title,
the description to the excerpt, and the keywords are absent. -/
theorem metadata_fields_witness :
    excerptPost.seo.bind SEO.metaTitle = none ∧
    (generateMetadata (some excerptPost)).title = excerptPost.title ∧
    (generateMetadata (some excerptPost)).description = excerptPost.excerpt ∧
    (generateMetadata (some excerptPost)).keywords = none :=
  ⟨rfl,
   (metadata_fields excerptPost).2.1 rfl,
   (metadata_fields excerptPost).2.2.2.1 rfl,
   (metadata_fields excerptPost).2.2.2.2.2 rfl⟩

/-- C6: when the detail query matches no document, the page renders the
"not found" view — distinguishable from every rendered-article view — and
the metadata hook independently produces the fallback title
"Post Not Found"; both are total functions, so no failure escapes. -/
theorem not_found_paths (b : ImageBuilder) (db : List PostDoc) (slug : String)
    (h : postQuery db slug = none) :
    postPage b (postQuery db slug) = DetailView.notFound ∧
    (generateMetadata (postQuery db slug)).title = "Post Not Found" ∧
    ∀ t mi fr, DetailView.notFound ≠ DetailView.rendered t mi fr := by
  rw [h]
  exact ⟨rfl, rfl, fun t mi fr hne => DetailView.noConfusion hne⟩

/-- C6 witness: on an empty store, the query misses, the page shows the
"not found" view and the metadata title is the fallback. -/
theorem not_found_paths_witness :
    postQuery [] "missing" = none ∧
    postPage sampleBuilder (postQuery [] "missing") = DetailView.notFound ∧
    (generateMetadata (postQuery [] "missing")).title = "Post Not Found" :=
  ⟨rfl,
   (not_found_paths sampleBuilder [] "missing" rfl).1,
   (not_found_paths sampleBuilder [] "missing" rfl).2.1⟩


/-- C7: a block whose discriminant is outside the recognised set renders as
nothing: its component yields no fragment, and inside any sequence it is
silently skipped, leaving the surrounding blocks' output untouched; the
renderer is total, so no error reaches the caller. -/
theorem unknown_block_skipped (b : ImageBuilder) (tag : String)
    (front back : List BodyBlock) :
    renderBlock b (BodyBlock.unknown tag) = none ∧
    renderBlocks b (front ++ BodyBlock.unknown tag :: back)
      = renderBlocks b front ++ renderBlocks b back := by
  refine ⟨rfl, ?_⟩
  simp [renderBlocks, List.filterMap_append, List.filterMap_cons, renderBlock]

/-- C8: an empty (or absent) index fetch result renders the explicit
"no posts" state; that state differs from every rendered card list, and no
fetch result ever renders an empty card list. -/
theorem empty_index_state (fetched : Option (List PostSummary))
    (h : fetched = none ∨ fetched = some []) :
    blogIndexPage fetched = IndexView.noPosts ∧
    (∀ cards, IndexView.noPosts ≠ IndexView.postList cards) ∧
    ∀ g : Option (List PostSummary), blogIndexPage g ≠ IndexView.postList [] := by
  refine ⟨?_, fun cards hne => IndexView.noConfusion hne, ?_⟩
  · rcases h with h | h <;> rw [h] <;> rfl
  · intro g hg
    match g, hg with
    | none, hg => exact IndexView.noConfusion hg
    | some [], hg => exact IndexView.noConfusion hg
    | some (p :: ps), hg =>
        exact List.cons_ne_nil p ps (IndexView.postList.inj hg)

/-- C8 witness: the empty fetched list produces the "no posts" state. -/
theorem empty_index_state_witness :
    (some ([] : List PostSummary) = none
        ∨ some ([] : List PostSummary) = some []) ∧
    blogIndexPage (some []) = IndexView.noPosts :=
  ⟨Or.inr rfl, (empty_index_state (some []) (Or.inr rfl)).1⟩

/-- C9: a missing project id or dataset makes module load fail with the
configuration error, so no page can be served; with both identifiers
present (and non-empty, which is what the JavaScript truthiness test
checks), module load succeeds with the builder over those identifiers, and
URL derivation then yields a URL for every asset reference.  The actual
client configuration of `src/unnamed/part_000` passes the check. -/
theorem config_check (cfg : ClientConfig) :
    (cfg.projectId = none ∨ cfg.dataset = none →
        moduleInit cfg
          = Except.error "Sanity project ID and dataset are required") ∧
    (∀ p d, cfg.projectId = some p → p ≠ "" → cfg.dataset = some d → d ≠ "" →
        moduleInit cfg = Except.ok { projectId := p, dataset := d } ∧
        ∀ ref w hgt,
          urlFor { projectId := p, dataset := d } (some ref) w hgt ≠ none) ∧
    moduleInit clientConfig
      = Except.ok { projectId := "ppql4ntm", dataset := "production" } := by
  refine ⟨?_, ?_, rfl⟩
  · intro h
    rcases h with h | h <;> simp [moduleInit, strTruthy, h]
  · intro p d hp hpne hd hdne
    refine ⟨?_, fun ref w hgt => by simp [urlFor]⟩
    simp [moduleInit, strTruthy, hp, hd, hpne, hdne]

/-- C9 witness: a configuration lacking the project id fails module load;
the repository's configuration succeeds and derives an image URL. -/
theorem config_check_witness :
    moduleInit { projectId := none, dataset := some "production" }
      = Except.error "Sanity project ID and dataset are required" ∧
    moduleInit clientConfig
      = Except.ok { projectId := "ppql4ntm", dataset := "production" } ∧
    urlFor { projectId := "ppql4ntm", dataset := "production" }
        (some "ref1") 800 none ≠ none :=
  ⟨(config_check { projectId := none, dataset := some "production" }).1
      (Or.inl rfl),
   (config_check clientConfig).2.2,
   ((config_check clientConfig).2.1 "ppql4ntm" "production" rfl (by decide)
      rfl (by decide)).2 "ref1" 800 none⟩

/-- C10: a null/undefined index fetch result is treated exactly like the
empty list — both render the "no posts" state — and whenever the card-list
branch is taken its cards are the fetched posts, necessarily non-empty. -/
theorem null_like_empty (fetched : Option (List PostSummary)) :
    blogIndexPage none = blogIndexPage (some []) ∧
    ∀ cards, blogIndexPage fetched = IndexView.postList cards →
      cards ≠ [] ∧ fetched = some cards := by
  refine ⟨rfl, ?_⟩
  intro cards hc
  match fetched, hc with
  | none, hc => exact absurd hc (fun h => IndexView.noConfusion h)
  | some [], hc => exact absurd hc (fun h => IndexView.noConfusion h)
  | some (p :: ps), hc =>
      obtain rfl : p :: ps = cards := IndexView.postList.inj hc
      exact ⟨List.cons_ne_nil p ps, rfl⟩

/-- The sample summary used by the index witnesses. -/
def sampleSummary : PostSummary :=
  toSummary (samplePost "s1" 3)

/-- C10 witness: the null and empty fetch results agree, and the card-list
branch taken on a concrete one-post fetch carries that non-empty list. -/
theorem null_like_empty_witness :
    blogIndexPage none = blogIndexPage (some []) ∧
    ([sampleSummary] ≠ ([] : List PostSummary)
        ∧ some [sampleSummary] = some [sampleSummary]) :=
  ⟨(null_like_empty none).1,
   (null_like_empty (some [sampleSummary])).2 [sampleSummary] rfl⟩

end AzkaBlog
